import Mathlib

/-!
Verification of the endpoint health-probing and merge logic of the
Infinity Admin Control Plane dashboard (dashboard/app.js) and of its
offline cache manager (the PWA service worker). The definitions below are
shallow embeddings of the corresponding JavaScript functions; browser
primitives (fetch with a timeout, localStorage, the Cache API, the WHATWG
URL constructor) are modelled explicitly where the embedded code calls
them.
-/

namespace IACP

/-! ### Data model: probe statuses and endpoint descriptors -/

/-- Probe result statuses used by the dashboard. The string values in the
source are "online", "offline" and "checking". -/
inductive Status where
  | online
  | offline
  | checking
deriving DecidableEq, Repr

/-- Endpoint descriptor, mirroring the object literals of app.js:
id, label, url, icon, group. -/
structure Endpoint where
  id : String
  label : String
  url : String
  icon : String
  group : String
deriving DecidableEq, Repr

/-- Built-in Cloudflare tunnel plus AI gateway endpoints (app.js line 626). -/
def CF_ENDPOINTS : List Endpoint :=
  [ { id := "vizual-x", label := "vizual-x.com", url := "https://vizual-x.com", icon := "☁️", group := "cf" },
    { id := "infinityxai", label := "infinityxai.com", url := "https://infinityxai.com", icon := "🤖", group := "ai" } ]

/-- Built-in AI provider endpoints (app.js line 630). -/
def AI_ENDPOINTS : List Endpoint :=
  [ { id := "ollama-local", label := "Ollama (local)", url := "http://localhost:11434", icon := "🦙", group := "ai" },
    { id := "groq-api", label := "Groq API", url := "https://api.groq.com", icon := "⚡", group := "ai" },
    { id := "gemini-api", label := "Gemini API", url := "https://generativelanguage.googleapis.com", icon := "🔮", group := "ai" } ]

/-! ### Probe model (probeEndpoint, app.js lines 641-653)

The probe issues a no-cors HEAD fetch with an AbortController timer of
5000 ms. The network is modelled by a FetchBehavior: the server either
produces a response at time t (possibly an unreadable cross-origin
response, flagged by opq), the fetch fails hard at time t (network error,
DNS failure, CORS rejection), or no response ever arrives. -/

/-- Behaviour of the network for one probed URL. -/
inductive FetchBehavior where
  | respondsAt (t : Nat) (opq : Bool)
  | failsAt (t : Nat)
  | neverResponds
deriving DecidableEq, Repr

/-- The fixed probe timeout in milliseconds (app.js line 643). -/
def PROBE_TIMEOUT_MS : Nat := 5000

/-- Outcome of the fetch call as observed by the JavaScript code: the
promise resolves with a response, rejects with an AbortError raised by the
timeout timer, or rejects with some other error. -/
inductive FetchOutcome where
  | resolved (opq : Bool)
  | rejectedAbort
  | rejectedError
deriving DecidableEq, Repr

/-- Semantics of fetch racing against the 5000 ms abort timer: a response
strictly before the timer wins; otherwise the abort fires first. A hard
failure before the timer surfaces as its own error. -/
def fetchWithTimeout : FetchBehavior → FetchOutcome
  | .respondsAt t opq => if t < PROBE_TIMEOUT_MS then .resolved opq else .rejectedAbort
  | .failsAt t => if t < PROBE_TIMEOUT_MS then .rejectedError else .rejectedAbort
  | .neverResponds => .rejectedAbort

/-- Embedding of probeEndpoint (app.js lines 641-653): any resolved
response, readable or not, yields online; both the AbortError branch and
the generic catch branch yield offline. The function is total, so the
probe never rejects. -/
def probeEndpoint (b : FetchBehavior) : Status :=
  match fetchWithTimeout b with
  | .resolved _ => .online
  | .rejectedAbort => .offline
  | .rejectedError => .offline

/-! ### Merging of built-in endpoints with saved override URLs

localStorage.getItem returns a string or null; a JavaScript truthiness
test then rejects null and the empty string. The two saved override values
are read from the keys iacp_gw_cf_tunnel_url and iacp_gw_cf_gateway_url
and are passed here as sc (tunnel) and sg (gateway). -/

/-- JavaScript truthiness of a string-or-null value: null and the empty
string are falsy. -/
def optTruthy : Option String → Bool
  | none => false
  | some s => s != ""

/-- Model of String.prototype.trim: strip leading and trailing
whitespace. -/
def jsTrim (s : String) : String :=
  String.mk (((s.data.dropWhile Char.isWhitespace).reverse.dropWhile Char.isWhitespace).reverse)

/-- Per-endpoint override step of the merge (app.js lines 680-684, and
identically lines 526-532 inside loadVault): the saved tunnel URL
overrides the built-in vizual-x entry and the saved gateway URL overrides
the built-in infinityxai entry, when truthy. -/
def applyOverrides (sc sg : Option String) (ep : Endpoint) : Endpoint :=
  if ep.id == "vizual-x" && optTruthy sc then { ep with url := sc.getD ep.url }
  else if ep.id == "infinityxai" && optTruthy sg then { ep with url := sg.getD ep.url }
  else ep

/-- Merged built-in CF endpoint list: CF_ENDPOINTS with saved overrides
applied (app.js lines 678-684; the same computation is repeated in
loadVault at lines 526-532). -/
def mergedCfEndpoints (sc sg : Option String) : List Endpoint :=
  CF_ENDPOINTS.map (applyOverrides sc sg)

/-! ### The loadGateway refresh cycle (app.js lines 672-716)

custom is the parsed value of the iacp_gw_custom localStorage key, with
the empty list as the parse-failure fallback. The network state during
one probe batch is a function b from URL to FetchBehavior. -/

/-- Custom endpoints rendered in the tunnel grid (group cf). -/
def cfCustomOf (custom : List Endpoint) : List Endpoint :=
  custom.filter (fun c => c.group == "cf")

/-- Endpoints rendered in the AI grid: built-in AI endpoints followed by
custom endpoints outside the cf group (app.js line 692). -/
def allAiOf (custom : List Endpoint) : List Endpoint :=
  AI_ENDPOINTS ++ custom.filter (fun c => c.group != "cf")

/-- The single probe batch of loadGateway (app.js line 699): merged CF
endpoints, then custom cf endpoints, then the AI grid endpoints. -/
def gatewayAllEndpoints (sc sg : Option String) (custom : List Endpoint) : List Endpoint :=
  mergedCfEndpoints sc sg ++ cfCustomOf custom ++ allAiOf custom

/-- URLs probed by one loadGateway refresh cycle. -/
def gatewayProbedUrls (sc sg : Option String) (custom : List Endpoint) : List String :=
  (gatewayAllEndpoints sc sg custom).map Endpoint.url

/-- The statusMap object of app.js lines 703-704: built by a forEach over
the batch, with later assignments to the same id overwriting earlier
ones. -/
def buildStatusMap (entries : List (String × Status)) : String → Option Status :=
  entries.foldl (fun m e => fun q => if q == e.1 then some e.2 else m q) (fun _ => none)

/-- Status map produced by the single probe batch of loadGateway. -/
def gatewayStatusMap (sc sg : Option String) (custom : List Endpoint)
    (b : String → FetchBehavior) : String → Option Status :=
  buildStatusMap ((gatewayAllEndpoints sc sg custom).map (fun ep => (ep.id, probeEndpoint (b ep.url))))

/-- Rendered status of one endpoint id, statusMap lookup with the offline
fallback of app.js lines 706-707 and 715. -/
def statusOrOffline (m : String → Option Status) (id : String) : Status :=
  (m id).getD .offline

/-- Final rendering of the gateway CF grid after the batch settles
(app.js line 706). -/
def gatewayCfPanel (sc sg : Option String) (custom : List Endpoint)
    (b : String → FetchBehavior) : List (Endpoint × Status) :=
  (mergedCfEndpoints sc sg ++ cfCustomOf custom).map
    (fun ep => (ep, statusOrOffline (gatewayStatusMap sc sg custom b) ep.id))

/-- Final rendering of the gateway AI grid after the batch settles
(app.js line 707). -/
def gatewayAiPanel (sc sg : Option String) (custom : List Endpoint)
    (b : String → FetchBehavior) : List (Endpoint × Status) :=
  (allAiOf custom).map
    (fun ep => (ep, statusOrOffline (gatewayStatusMap sc sg custom b) ep.id))

/-- Vault endpoint grid as rendered by loadGateway through
renderVaultEndpoints (app.js line 715), from the same status map as the
gateway grids. -/
def gatewayVaultPanel (sc sg : Option String) (custom : List Endpoint)
    (b : String → FetchBehavior) : List (Endpoint × Status) :=
  (mergedCfEndpoints sc sg ++ cfCustomOf custom).map
    (fun ep => (ep, statusOrOffline (gatewayStatusMap sc sg custom b) ep.id))

/-! ### The loadVault probing path (app.js lines 525-538)

loadVault does not reuse the loadGateway status map: it recomputes the
merged built-in CF endpoints and issues its own probe batch over them,
then renders the vault endpoint grid from those fresh results. -/

/-- Endpoints probed by the loadVault path: the merged built-in CF
endpoints only (custom endpoints are not included there). -/
def vaultSectionEndpoints (sc sg : Option String) : List Endpoint :=
  mergedCfEndpoints sc sg

/-- URLs probed by one loadVault call (app.js line 536). -/
def vaultSectionProbedUrls (sc sg : Option String) : List String :=
  (vaultSectionEndpoints sc sg).map Endpoint.url

/-- Vault endpoint grid as rendered by loadVault from its own probe batch
(app.js line 537). -/
def vaultSectionPanel (sc sg : Option String) (b : String → FetchBehavior) :
    List (Endpoint × Status) :=
  (vaultSectionEndpoints sc sg).map (fun ep => (ep, probeEndpoint (b ep.url)))

/-! ### Model of the WHATWG URL constructor

addGatewayEndpoint validates the url field with new URL(url), a browser
primitive. The constructor succeeds exactly when the string is an
absolute URL: an ASCII-letter-initiated scheme followed by a colon, and,
for the special network schemes, a nonempty host after any leading
slashes. Relative strings such as not-a-url (no colon) are rejected. -/

/-- ASCII letter test for the first scheme character. -/
def isAsciiAlphaChar (c : Char) : Bool :=
  ('a' ≤ c && c ≤ 'z') || ('A' ≤ c && c ≤ 'Z')

/-- Characters allowed after the first character of a URL scheme. -/
def isSchemeRestChar (c : Char) : Bool :=
  isAsciiAlphaChar c || ('0' ≤ c && c ≤ '9') || c == '+' || c == '-' || c == '.'

/-- Scan for the scheme terminator, accumulating scheme characters. -/
def schemeSplitAux (acc : List Char) : List Char → Option (List Char × List Char)
  | [] => none
  | c :: rest =>
    if c == ':' then some (acc.reverse, rest)
    else if isSchemeRestChar c then schemeSplitAux (c :: acc) rest
    else none

/-- Split a URL string into scheme and remainder, failing when no valid
scheme terminated by a colon is present. -/
def schemeSplit : List Char → Option (List Char × List Char)
  | [] => none
  | c :: rest => if isAsciiAlphaChar c then schemeSplitAux [c] rest else none

/-- The special network schemes of the URL standard, which require a
nonempty host. -/
def specialSchemes : List String := ["http", "https", "ws", "wss", "ftp"]

/-- Lower-case a scheme for the case-insensitive scheme comparison. -/
def toLowerStr (cs : List Char) : String := String.mk (cs.map Char.toLower)

/-- Drop the slashes separating a special scheme from its host; the URL
parser also treats backslashes as slashes there. -/
def dropLeadingSlashes : List Char → List Char
  | [] => []
  | c :: rest => if c == '/' || c == '\\' then dropLeadingSlashes rest else c :: rest

/-- A host is present when the remainder is nonempty and does not start
at a path, query or fragment delimiter. -/
def hostStartOk : List Char → Bool
  | [] => false
  | c :: _ => !(c == '/' || c == '?' || c == '#')

/-- Success condition of new URL(s) with no base argument. -/
def newURLOk (s : String) : Bool :=
  match schemeSplit s.data with
  | none => false
  | some (schemeChars, rest) =>
    if specialSchemes.contains (toLowerStr schemeChars) then
      hostStartOk (dropLeadingSlashes rest)
    else true

/-! ### addGatewayEndpoint (app.js lines 726-744) -/

/-- Generated id for a user-added endpoint (app.js line 736): the
template custom-(Date.now())-(random suffix), with the timestamp and the
random suffix passed in as now and rand. -/
def genCustomId (now : Nat) (rand : String) : String :=
  "custom-" ++ toString now ++ "-" ++ rand

/-- Observable outcome of addGatewayEndpoint: the error toast, if any,
and the persisted custom endpoint list after the call. -/
structure AddOutcome where
  toastError : Option String
  stored : List Endpoint
deriving DecidableEq, Repr

/-- Embedding of addGatewayEndpoint (app.js lines 726-744). labelRaw and
urlRaw are the field values, trimmed as in the source; stored is the
parsed iacp_gw_custom list read back from localStorage. On a validation
failure a toast is shown and the list is left unchanged; on success one
entry with a generated id, the link icon and group cf is appended and
written back. -/
def addGatewayEndpoint (labelRaw urlRaw : String) (now : Nat) (rand : String)
    (stored : List Endpoint) : AddOutcome :=
  let label := jsTrim labelRaw
  let url := jsTrim urlRaw
  if label == "" || url == "" then
    { toastError := some "Enter both a label and a URL", stored := stored }
  else if !(newURLOk url) then
    { toastError := some "Invalid URL — must start with http:// or https://", stored := stored }
  else
    { toastError := none,
      stored := stored ++ [{ id := genCustomId now rand, label := label, url := url, icon := "🔗", group := "cf" }] }

/-! ### saveTunnelConfig (app.js lines 752-758) -/

/-- The three gateway-related localStorage keys (app.js lines 621-623). -/
def GW_KEY_CUSTOM : String := "iacp_gw_custom"

/-- Key of the saved tunnel override URL. -/
def GW_KEY_CF_URL : String := "iacp_gw_cf_tunnel_url"

/-- Key of the saved gateway override URL. -/
def GW_KEY_CF_GW : String := "iacp_gw_cf_gateway_url"

/-- Client-local storage as a key-value map. -/
abbrev LocalStore : Type := String → Option String

/-- localStorage.setItem. -/
def setItem (st : LocalStore) (k v : String) : LocalStore :=
  fun q => if q == k then some v else st q

/-- Embedding of saveTunnelConfig: each input is the trimmed value of its
settings field, or none when the field element is absent; a write happens
only when the trimmed value is truthy, i.e. nonempty. -/
def saveTunnelConfig (cfInput gwInput : Option String) (st : LocalStore) : LocalStore :=
  let cfUrl := cfInput.map jsTrim
  let gwUrl := gwInput.map jsTrim
  let st1 := if optTruthy cfUrl then setItem st GW_KEY_CF_URL (cfUrl.getD "") else st
  if optTruthy gwUrl then setItem st1 GW_KEY_CF_GW (gwUrl.getD "") else st1

/-! ### Offline cache manager (pwa/service-worker.js)

Responses are modelled by body and status; response.ok is the usual 2xx
test and the Response constructor default status is 200. The cache
storage is an ordered list of named cache generations, each an ordered
list of entries keyed by request URL. -/

/-- Shell cache generation identifier (service-worker.js line 206). -/
def CACHE_NAME : String := "iacp-v1"

/-- API cache generation identifier (service-worker.js line 207). -/
def API_CACHE : String := "iacp-api-v1"

/-- HTTP response as far as the worker inspects it. -/
structure SWResponse where
  body : String
  status : Nat
deriving DecidableEq, Repr

/-- response.ok: status in the 200-299 range. -/
def SWResponse.ok (r : SWResponse) : Bool := 200 ≤ r.status && r.status ≤ 299

/-- Synthesized body served when a GitHub API fetch fails
(service-worker.js line 250). -/
def offlineApiResponse : SWResponse := { body := "\x7b\"error\":\"offline\"\x7d", status := 200 }

/-- Empty JSON object of the dead stale-while-revalidate fallback
(service-worker.js line 295). -/
def emptyJsonResponse : SWResponse := { body := "\x7b\x7d", status := 200 }

/-- Generic offline response of the cache-first paths
(service-worker.js line 284). -/
def offlineFallbackResponse : SWResponse := { body := "Offline", status := 503 }

/-- One cache generation: entries keyed by request URL. -/
abbrev CacheEntries : Type := List (String × SWResponse)

/-- The whole cache storage: named generations in creation order. -/
abbrev CacheStore : Type := List (String × CacheEntries)

/-- cache.match on one generation. -/
def cacheMatch (entries : CacheEntries) (key : String) : Option SWResponse :=
  (entries.find? (fun e => e.1 == key)).map Prod.snd

/-- cache.put: replace the entry for the key, or append a new one. -/
def cachePut (entries : CacheEntries) (key : String) (r : SWResponse) : CacheEntries :=
  if (entries.find? (fun e => e.1 == key)).isSome then
    entries.map (fun e => if e.1 == key then (key, r) else e)
  else entries ++ [(key, r)]

/-- Entries of a named generation, empty when absent. -/
def lookupCache (cs : CacheStore) (name : String) : Option CacheEntries :=
  (cs.find? (fun c => c.1 == name)).map Prod.snd

/-- caches.open followed by writing back the generation: replaces the
named generation, creating it at the end when absent. -/
def setCacheEntries (cs : CacheStore) (name : String) (entries : CacheEntries) : CacheStore :=
  if (cs.find? (fun c => c.1 == name)).isSome then
    cs.map (fun c => if c.1 == name then (name, entries) else c)
  else cs ++ [(name, entries)]

/-- caches.match without a cache name: first hit over the generations in
order. -/
def cachesMatchAll (cs : CacheStore) (key : String) : Option SWResponse :=
  cs.findSome? (fun c => cacheMatch c.2 key)

/-- Activation cleanup (service-worker.js lines 228-238): every cache
generation whose identifier differs from both current identifiers is
deleted; the survivors are kept untouched. -/
def activateCleanup (cs : CacheStore) : CacheStore :=
  cs.filter (fun c => !(c.1 != CACHE_NAME && c.1 != API_CACHE))

/-! ### Request classification (the fetch listener, service-worker.js
lines 241-270), in source order with the first match winning. -/

/-- The five serving policies of the fetch listener. -/
inductive SWPolicy where
  | passThrough
  | networkFirstApi
  | staleWhileRevalidateState
  | cacheFirstCdn
  | cacheFirstShell
deriving DecidableEq, Repr

/-- The state-snapshot directory marker (service-worker.js line 257). -/
def STATE_MARKER : String := "/_STATE/"

/-- List-level test that the first list is an initial segment of the
second. -/
def leadsWithL : List Char → List Char → Bool
  | [], _ => true
  | _ :: _, [] => false
  | a :: as, b :: bs => a == b && leadsWithL as bs

/-- Substring test on character lists, mirroring String.prototype.includes. -/
def containsSub (needle : List Char) : List Char → Bool
  | [] => needle.isEmpty
  | c :: rest => leadsWithL needle (c :: rest) || containsSub needle rest

/-- url.pathname.includes of the state marker. -/
def pathHasStateMarker (pathname : String) : Bool :=
  containsSub STATE_MARKER.data pathname.data

/-- Classification of a request by the fetch listener, evaluated in
source order: non-GET pass-through, the live GitHub API host, the state
marker, the exact CDN hostname, then the shell default. -/
def classifyRequest (method hostname pathname : String) : SWPolicy :=
  if method != "GET" then .passThrough
  else if hostname == "api.github.com" then .networkFirstApi
  else if pathHasStateMarker pathname then .staleWhileRevalidateState
  else if hostname == "cdnjs.cloudflare.com" then .cacheFirstCdn
  else .cacheFirstShell

/-! ### The stale-while-revalidate helper (service-worker.js lines
288-296), embedded together with the JavaScript value semantics of its
return expression. The function returns cached OR fetchPromise OR a fresh
empty-JSON response, where OR is JavaScript logical-or on a
response-or-undefined, a promise, and a response. A promise object is
always truthy, whatever it later resolves to. -/

/-- JavaScript values appearing in the return expression of
staleWhileRevalidate. -/
inductive JSVal where
  | responseV (r : SWResponse)
  | promiseV (p : Option SWResponse)
  | undefinedV
deriving DecidableEq, Repr

/-- JavaScript truthiness of those values: undefined is falsy; response
objects and promise objects are truthy. -/
def jsTruthy : JSVal → Bool
  | .undefinedV => false
  | _ => true

/-- JavaScript logical-or. -/
def jsOr (a b : JSVal) : JSVal := if jsTruthy a then a else b

/-- Awaiting the value handed to event.respondWith: a resolved null (the
catch handler of the fetch promise returns null) yields no response, which
fails the intercepted request with a network error. -/
def resolveRespondWith : JSVal → Option SWResponse
  | .responseV r => some r
  | .promiseV p => p
  | .undefinedV => none

/-- Embedding of staleWhileRevalidate over one cache generation: net is
the eventual result of the revalidation fetch (none when it fails). The
first component is the response the request is answered with, none when
the request ends in a network error; the second is the generation after
the background revalidation settles. -/
def staleWhileRevalidate (entries : CacheEntries) (key : String)
    (net : Option SWResponse) : Option SWResponse × CacheEntries :=
  let cached := cacheMatch entries key
  let entriesAfter :=
    match net with
    | some r => if r.ok then cachePut entries key r else entries
    | none => entries
  let cachedVal : JSVal :=
    match cached with
    | some c => .responseV c
    | none => .undefinedV
  let ret := jsOr (jsOr cachedVal (.promiseV net)) (.responseV emptyJsonResponse)
  (resolveRespondWith ret, entriesAfter)

/-- Embedding of the cacheFirst helper (service-worker.js lines 273-286):
caches.match searches every generation; a network response is cached only
when ok; total failure yields the 503 offline response. -/
def cacheFirst (cs : CacheStore) (cacheName key : String)
    (net : Option SWResponse) : SWResponse × CacheStore :=
  match cachesMatchAll cs key with
  | some c => (c, cs)
  | none =>
    match net with
    | some r =>
      (r, if r.ok then setCacheEntries cs cacheName (cachePut (lookupCache cs cacheName |>.getD []) key r) else cs)
    | none => (offlineFallbackResponse, cs)

/-- The whole fetch listener: classify the request, then serve it under
the selected policy. net is the eventual network result for the request;
a pass-through request is answered by the network alone. The first
component is none when the interception ends in a network error. -/
def handleFetch (method hostname pathname reqUrl : String)
    (cs : CacheStore) (net : Option SWResponse) : Option SWResponse × CacheStore :=
  match classifyRequest method hostname pathname with
  | .passThrough => (net, cs)
  | .networkFirstApi => (some (net.getD offlineApiResponse), cs)
  | .staleWhileRevalidateState =>
    let r := staleWhileRevalidate (lookupCache cs API_CACHE |>.getD []) reqUrl net
    (r.1, setCacheEntries cs API_CACHE r.2)
  | .cacheFirstCdn =>
    let r := cacheFirst cs CACHE_NAME reqUrl net
    (some r.1, r.2)
  | .cacheFirstShell =>
    let r := cacheFirst cs CACHE_NAME reqUrl net
    (some r.1, r.2)

/-! ## Helper lemmas -/

/-- A probe always settles to one of the two terminal statuses. -/
theorem probe_settles (b : FetchBehavior) :
    probeEndpoint b = Status.online ∨ probeEndpoint b = Status.offline := by
  cases b with
  | respondsAt t opq =>
    by_cases ht : t < PROBE_TIMEOUT_MS <;> simp [probeEndpoint, fetchWithTimeout, ht]
  | failsAt t =>
    by_cases ht : t < PROBE_TIMEOUT_MS <;> simp [probeEndpoint, fetchWithTimeout, ht]
  | neverResponds => simp [probeEndpoint, fetchWithTimeout]

/-- Generalized inversion of the statusMap fold: a successful lookup comes
from one of the folded entries or from the initial map. -/
theorem buildStatusMap_foldl (entries : List (String × Status))
    (m0 : String → Option Status) (q : String) (s : Status)
    (h : entries.foldl (fun m e => fun q => if q == e.1 then some e.2 else m q) m0 q = some s) :
    (∃ e ∈ entries, e.2 = s) ∨ m0 q = some s := by
  induction entries generalizing m0 with
  | nil => exact Or.inr h
  | cons e rest ih =>
    simp only [List.foldl_cons] at h
    rcases ih (fun q' => if q' == e.1 then some e.2 else m0 q') h with h1 | h2
    · rcases h1 with ⟨e', he', hs⟩
      exact Or.inl ⟨e', List.mem_cons_of_mem _ he', hs⟩
    · by_cases hq : q == e.1
      · simp only [hq, if_pos] at h2
        exact Or.inl ⟨e, List.mem_cons_self _ _, (Option.some.injEq _ _).mp h2.symm |>.symm⟩
      · simp only [hq, if_neg] at h2
        exact Or.inr h2

/-- A successful statusMap lookup returns the status of some folded
entry. -/
theorem buildStatusMap_mem (entries : List (String × Status)) (q : String) (s : Status)
    (h : buildStatusMap entries q = some s) : ∃ e ∈ entries, e.2 = s := by
  rcases buildStatusMap_foldl entries (fun _ => none) q s h with h1 | h2
  · exact h1
  · exact absurd h2 (by simp)

/-- Every status rendered from the loadGateway status map is terminal. -/
theorem gateway_status_settled (sc sg : Option String) (custom : List Endpoint)
    (b : String → FetchBehavior) (id : String) :
    statusOrOffline (gatewayStatusMap sc sg custom b) id = Status.online ∨
    statusOrOffline (gatewayStatusMap sc sg custom b) id = Status.offline := by
  unfold statusOrOffline
  cases hm : gatewayStatusMap sc sg custom b id with
  | none => exact Or.inr rfl
  | some s =>
    obtain ⟨e, he, hes⟩ := buildStatusMap_mem _ id s hm
    rw [List.mem_map] at he
    obtain ⟨ep, _, rfl⟩ := he
    simp only [Option.getD_some]
    have hes' : probeEndpoint (b ep.url) = s := hes
    rw [← hes']
    exact probe_settles (b ep.url)

/-! ## C2 — probe classification -/

/-- C2: the probe classifies online exactly when some response, even an
unreadable cross-origin one, arrives strictly before the 5-second
timeout; every failing behaviour, timeout and hard failure alike,
classifies offline, and the probe always settles to one of the two
terminal statuses, never rejecting. -/
theorem probe_online_iff_response_before_timeout (b : FetchBehavior) :
    (probeEndpoint b = Status.online ↔
      ∃ t opq, b = FetchBehavior.respondsAt t opq ∧ t < PROBE_TIMEOUT_MS) ∧
    (probeEndpoint b = Status.online ∨ probeEndpoint b = Status.offline) := by
  refine ⟨⟨?_, ?_⟩, probe_settles b⟩
  · intro h
    cases b with
    | respondsAt t opq =>
      by_cases ht : t < PROBE_TIMEOUT_MS
      · exact ⟨t, opq, rfl, ht⟩
      · simp [probeEndpoint, fetchWithTimeout, ht] at h
    | failsAt t =>
      by_cases ht : t < PROBE_TIMEOUT_MS <;> simp [probeEndpoint, fetchWithTimeout, ht] at h
    | neverResponds => simp [probeEndpoint, fetchWithTimeout] at h
  · rintro ⟨t, opq, rfl, ht⟩
    simp [probeEndpoint, fetchWithTimeout, ht]

/-! ## C6 — batch rendering is complete and settled -/

/-- C6: after one loadGateway probe batch settles, the two grids together
render exactly one status entry per endpoint of the batch, and every
rendered entry is online or offline, never the transient checking
state. -/
theorem probe_batch_render_complete_and_settled (sc sg : Option String)
    (custom : List Endpoint) (b : String → FetchBehavior) :
    (gatewayCfPanel sc sg custom b).length + (gatewayAiPanel sc sg custom b).length
      = (gatewayAllEndpoints sc sg custom).length ∧
    ((gatewayCfPanel sc sg custom b ++ gatewayAiPanel sc sg custom b).all
      (fun p => p.2 == Status.online || p.2 == Status.offline)) = true := by
  constructor
  · simp only [gatewayCfPanel, gatewayAiPanel, gatewayAllEndpoints,
      List.length_map, List.length_append]
  · rw [List.all_eq_true]
    intro p hp
    rcases List.mem_append.mp hp with h | h
    · rw [gatewayCfPanel, List.mem_map] at h
      obtain ⟨ep, _, rfl⟩ := h
      rcases gateway_status_settled sc sg custom b ep.id with hs | hs <;> simp [hs]
    · rw [gatewayAiPanel, List.mem_map] at h
      obtain ⟨ep, _, rfl⟩ := h
      rcases gateway_status_settled sc sg custom b ep.id with hs | hs <;> simp [hs]

/-! ## C1 — one probe batch shared by the Gateway panel and the Vault panel -/

/-- The built-in vizual-x endpoint, head of CF_ENDPOINTS. -/
def vizualXDefault : Endpoint :=
  { id := "vizual-x", label := "vizual-x.com", url := "https://vizual-x.com", icon := "☁️", group := "cf" }

/-- The built-in infinityxai endpoint, second element of CF_ENDPOINTS. -/
def infinityXaiDefault : Endpoint :=
  { id := "infinityxai", label := "infinityxai.com", url := "https://infinityxai.com", icon := "🤖", group := "ai" }

/-- A network in which every probe is answered immediately. -/
def netAllRespond : String → FetchBehavior := fun _ => FetchBehavior.respondsAt 0 false

/-- A network in which no probe is ever answered. -/
def netNoneRespond : String → FetchBehavior := fun _ => FetchBehavior.neverResponds

/-- C1 as stated: a refresh cycle consists of the loadGateway probe batch
b1 together with the vault-section loading path and its batch b2; the
claim asserts that no endpoint URL is probed by both panel loaders, and
that the Gateway panel and the Vault panel never disagree on the status of
an endpoint id within one cycle, whatever the two batches observe. -/
def C1ClaimStatement : Prop :=
  ∀ (sc sg : Option String) (custom : List Endpoint) (b1 b2 : String → FetchBehavior),
    (∀ u, u ∈ gatewayProbedUrls sc sg custom → u ∉ vaultSectionProbedUrls sc sg) ∧
    (∀ ep1 s1 ep2 s2, (ep1, s1) ∈ gatewayCfPanel sc sg custom b1 →
      (ep2, s2) ∈ vaultSectionPanel sc sg b2 → ep1.id = ep2.id → s1 = s2)

/-- Counterexample to C1 as stated: with no overrides and no custom
endpoints, loadVault probes https://vizual-x.com a second time after
loadGateway already probed it, and when the first batch sees a response
while the second does not, the Gateway panel shows vizual-x online while
the Vault panel rendered by loadVault shows it offline. -/
theorem vault_reprobes_and_panels_can_disagree :
    ¬ C1ClaimStatement ∧
    ("https://vizual-x.com" ∈ gatewayProbedUrls none none [] ∧
      "https://vizual-x.com" ∈ vaultSectionProbedUrls none none) ∧
    ((vizualXDefault, Status.online) ∈ gatewayCfPanel none none [] netAllRespond ∧
      (vizualXDefault, Status.offline) ∈ vaultSectionPanel none none netNoneRespond) := by
  refine ⟨?_, ⟨by decide, by decide⟩, by decide, by decide⟩
  intro h
  obtain ⟨hdisj, _⟩ := h none none [] netAllRespond netNoneRespond
  exact hdisj "https://vizual-x.com" (by decide) (by decide)

/-- C1 amended: within a single loadGateway refresh cycle the Gateway
panel and the Vault panel rendered through renderVaultEndpoints are
derived from the same status map of the one probe batch of that cycle, so
they agree on the status of every endpoint id; the vault section loader,
however, issues its own second probe batch, so the original claim fails
across the two loaders. -/
theorem gateway_cycle_panels_agree (sc sg : Option String) (custom : List Endpoint)
    (b : String → FetchBehavior) (ep1 ep2 : Endpoint) (s1 s2 : Status)
    (h1 : (ep1, s1) ∈ gatewayCfPanel sc sg custom b)
    (h2 : (ep2, s2) ∈ gatewayVaultPanel sc sg custom b)
    (hid : ep1.id = ep2.id) : s1 = s2 := by
  rw [gatewayCfPanel, List.mem_map] at h1
  rw [gatewayVaultPanel, List.mem_map] at h2
  obtain ⟨a1, _, he1⟩ := h1
  obtain ⟨a2, _, he2⟩ := h2
  injection he1 with ha1 hs1
  injection he2 with ha2 hs2
  subst ha1; subst ha2
  rw [← hs1, ← hs2, hid]

/-! ## C5 — saved overrides determine the effective URL -/

/-- Truthiness of a nonempty string value. -/
theorem optTruthy_some {u : String} (hu : u ≠ "") : optTruthy (some u) = true := by
  simpa [optTruthy, bne_iff_ne] using hu

/-- Overriding never changes the id of an endpoint. -/
theorem applyOverrides_id (sc sg : Option String) (ep : Endpoint) :
    (applyOverrides sc sg ep).id = ep.id := by
  unfold applyOverrides
  split
  · rfl
  · split <;> rfl

/-- C5: a truthy saved override URL replaces the URL of its built-in
endpoint in the merged list used for probing and display, while without
one the built-in default stays; the overridden URL is among the URLs
probed by both the gateway cycle and the vault loader. -/
theorem builtin_override_effective (sc sg : Option String) (custom : List Endpoint) :
    (∀ u, sc = some u → u ≠ "" →
      (mergedCfEndpoints sc sg).find? (fun ep => ep.id == "vizual-x")
          = some { vizualXDefault with url := u } ∧
        u ∈ gatewayProbedUrls sc sg custom ∧ u ∈ vaultSectionProbedUrls sc sg) ∧
    ((sc = none ∨ sc = some "") →
      (mergedCfEndpoints sc sg).find? (fun ep => ep.id == "vizual-x") = some vizualXDefault) ∧
    (∀ u, sg = some u → u ≠ "" →
      (mergedCfEndpoints sc sg).find? (fun ep => ep.id == "infinityxai")
          = some { infinityXaiDefault with url := u }) ∧
    ((sg = none ∨ sg = some "") →
      (mergedCfEndpoints sc sg).find? (fun ep => ep.id == "infinityxai") = some infinityXaiDefault) := by
  refine ⟨?_, ?_, ?_, ?_⟩
  · rintro u rfl hu
    refine ⟨?_, ?_, ?_⟩
    · simp [mergedCfEndpoints, CF_ENDPOINTS, applyOverrides, optTruthy_some hu,
        vizualXDefault, List.find?]
    · simp [gatewayProbedUrls, gatewayAllEndpoints, mergedCfEndpoints, CF_ENDPOINTS,
        applyOverrides, optTruthy_some hu]
    · simp [vaultSectionProbedUrls, vaultSectionEndpoints, mergedCfEndpoints, CF_ENDPOINTS,
        applyOverrides, optTruthy_some hu]
  · rintro (rfl | rfl) <;>
      simp [mergedCfEndpoints, CF_ENDPOINTS, applyOverrides, optTruthy,
        vizualXDefault, List.find?]
  · rintro u rfl hu
    have e1 : applyOverrides sc (some u)
          { id := "infinityxai", label := "infinityxai.com", url := "https://infinityxai.com", icon := "🤖", group := "ai" }
        = { id := "infinityxai", label := "infinityxai.com", url := u, icon := "🤖", group := "ai" } := by
      simp [applyOverrides, optTruthy_some hu]
    simp [mergedCfEndpoints, CF_ENDPOINTS, List.find?, applyOverrides_id, e1, infinityXaiDefault]
  · have base : ∀ sg', optTruthy sg' = false → applyOverrides sc sg'
          { id := "infinityxai", label := "infinityxai.com", url := "https://infinityxai.com", icon := "🤖", group := "ai" }
        = { id := "infinityxai", label := "infinityxai.com", url := "https://infinityxai.com", icon := "🤖", group := "ai" } := by
      intro sg' hf
      simp [applyOverrides, hf]
    rintro (rfl | rfl) <;>
      simp [mergedCfEndpoints, CF_ENDPOINTS, List.find?, applyOverrides_id,
        base none (by simp [optTruthy]), base (some "") (by simp [optTruthy]),
        infinityXaiDefault]

/-- Witness for C5 at the end-to-end scenario of the specification: a
saved override https://custom.example for vizual-x yields the merged entry
vizual-x with exactly that URL. -/
theorem builtin_override_effective_witness :
    (mergedCfEndpoints (some "https://custom.example") none).find? (fun ep => ep.id == "vizual-x")
        = some { vizualXDefault with url := "https://custom.example" } ∧
    "https://custom.example" ∈ gatewayProbedUrls (some "https://custom.example") none [] := by
  have h := (builtin_override_effective (some "https://custom.example") none []).1
    "https://custom.example" rfl (by decide)
  exact ⟨h.1, h.2.1⟩

/-- Witness for the amended C1 theorem at a concrete cycle. -/
theorem gateway_cycle_panels_agree_witness :
    (vizualXDefault, Status.offline) ∈ gatewayCfPanel none none [] netNoneRespond ∧
    (vizualXDefault, Status.offline) ∈ gatewayVaultPanel none none [] netNoneRespond ∧
    Status.offline = Status.offline :=
  ⟨by decide, by decide,
    gateway_cycle_panels_agree none none [] netNoneRespond vizualXDefault vizualXDefault
      Status.offline Status.offline (by decide) (by decide) rfl⟩

/-! ## C4 — validation and append behaviour of addGatewayEndpoint -/

/-- The generated custom id always starts with the letter c of its fixed
custom- template. -/
theorem genCustomId_head (now : Nat) (rand : String) :
    (genCustomId now rand).data.head? = some 'c' := rfl

/-- The generated custom id is nonempty. -/
theorem genCustomId_ne_empty (now : Nat) (rand : String) : genCustomId now rand ≠ "" := by
  intro h
  have h' := genCustomId_head now rand
  rw [h] at h'
  exact absurd h' (by decide)

/-- The generated custom id differs from every built-in endpoint id,
since no built-in id starts with the letter c. -/
theorem genCustomId_ne_builtin (now : Nat) (rand : String) :
    ∀ bep ∈ CF_ENDPOINTS ++ AI_ENDPOINTS, genCustomId now rand ≠ bep.id := by
  intro bep hmem heq
  have h' := genCustomId_head now rand
  rw [heq] at h'
  simp only [CF_ENDPOINTS, AI_ENDPOINTS, List.mem_append, List.mem_cons,
    List.not_mem_nil, or_false] at hmem
  rcases hmem with (rfl | rfl) | rfl | rfl | rfl <;> exact absurd h' (by decide)

/-- The URL validation rejects the empty string. -/
theorem newURLOk_empty : newURLOk "" = false := by decide

/-- Counterexample to C4 as stated: adding a valid endpoint succeeds even
when the freshly generated id collides with an id already present in the
persisted list — Date.now plus the random suffix is best effort, and the
code never checks for collisions — so the appended id is not guaranteed
distinct from all existing ids. -/
theorem addGatewayEndpoint_id_collision :
    (addGatewayEndpoint "X" "https://x.com" 5 "abc"
        [{ id := "custom-5-abc", label := "Old", url := "https://old.example", icon := "🔗", group := "cf" }]).toastError
      = none ∧
    ((addGatewayEndpoint "X" "https://x.com" 5 "abc"
        [{ id := "custom-5-abc", label := "Old", url := "https://old.example", icon := "🔗", group := "cf" }]).stored.map Endpoint.id)
      = ["custom-5-abc", "custom-5-abc"] := by
  constructor <;> decide

/-- C4 amended: an empty trimmed label or URL, or a URL the URL
constructor rejects, surfaces an error toast and leaves the persisted
list unchanged; a nonempty label with an accepted URL appends exactly one
entry whose generated id is nonempty and distinct from every built-in
endpoint id. Distinctness from previously stored custom ids is best
effort only and not checked. -/
theorem addGatewayEndpoint_validation_and_append (labelRaw urlRaw rand : String)
    (now : Nat) (stored : List Endpoint) :
    ((jsTrim labelRaw = "" ∨ jsTrim urlRaw = "") →
      addGatewayEndpoint labelRaw urlRaw now rand stored
        = { toastError := some "Enter both a label and a URL", stored := stored }) ∧
    (jsTrim labelRaw ≠ "" → jsTrim urlRaw ≠ "" → newURLOk (jsTrim urlRaw) = false →
      addGatewayEndpoint labelRaw urlRaw now rand stored
        = { toastError := some "Invalid URL — must start with http:// or https://", stored := stored }) ∧
    (jsTrim labelRaw ≠ "" → newURLOk (jsTrim urlRaw) = true →
      addGatewayEndpoint labelRaw urlRaw now rand stored
        = { toastError := none,
            stored := stored ++
              [{ id := genCustomId now rand, label := jsTrim labelRaw,
                 url := jsTrim urlRaw, icon := "🔗", group := "cf" }] } ∧
      genCustomId now rand ≠ "" ∧
      ∀ bep ∈ CF_ENDPOINTS ++ AI_ENDPOINTS, genCustomId now rand ≠ bep.id) := by
  refine ⟨?_, ?_, ?_⟩
  · intro h
    unfold addGatewayEndpoint
    rcases h with h | h <;> simp [h]
  · intro hl hu hbad
    unfold addGatewayEndpoint
    simp [beq_eq_false_iff_ne.mpr hl, beq_eq_false_iff_ne.mpr hu, hbad]
  · intro hl hok
    have hu : jsTrim urlRaw ≠ "" := by
      intro h
      rw [h, newURLOk_empty] at hok
      exact Bool.noConfusion hok
    refine ⟨?_, genCustomId_ne_empty now rand, genCustomId_ne_builtin now rand⟩
    unfold addGatewayEndpoint
    simp [beq_eq_false_iff_ne.mpr hl, beq_eq_false_iff_ne.mpr hu, hok]

/-- Witness for the amended C4 theorem at the three inputs named by the
specification. -/
theorem addGatewayEndpoint_validation_and_append_witness :
    addGatewayEndpoint "" "https://x.com" 0 "r" []
        = { toastError := some "Enter both a label and a URL", stored := [] } ∧
    addGatewayEndpoint "X" "not-a-url" 0 "r" []
        = { toastError := some "Invalid URL — must start with http:// or https://", stored := [] } ∧
    addGatewayEndpoint "X" "https://x.com" 0 "r" []
        = { toastError := none,
            stored := [{ id := "custom-0-r", label := "X", url := "https://x.com", icon := "🔗", group := "cf" }] } := by
  refine ⟨?_, ?_, ?_⟩
  · exact (addGatewayEndpoint_validation_and_append "" "https://x.com" "r" 0 []).1
      (Or.inl (by decide))
  · exact (addGatewayEndpoint_validation_and_append "X" "not-a-url" "r" 0 []).2.1
      (by decide) (by decide) (by decide)
  · have h := (addGatewayEndpoint_validation_and_append "X" "https://x.com" "r" 0 []).2.2
      (by decide) (by decide)
    exact h.1.trans (by decide)

/-! ## C7 — classification priority routes state-marker requests to
stale-while-revalidate -/

/-- C7: a GET request whose path contains the state-snapshot marker and
whose host is not the live GitHub API host is always classified
stale-while-revalidate, never network-first and never cache-first. -/
theorem state_marker_requests_use_swr (hostname pathname : String)
    (hapi : hostname ≠ "api.github.com") (hmark : pathHasStateMarker pathname = true) :
    classifyRequest "GET" hostname pathname = SWPolicy.staleWhileRevalidateState ∧
    classifyRequest "GET" hostname pathname ≠ SWPolicy.networkFirstApi ∧
    classifyRequest "GET" hostname pathname ≠ SWPolicy.cacheFirstCdn ∧
    classifyRequest "GET" hostname pathname ≠ SWPolicy.cacheFirstShell := by
  have he : classifyRequest "GET" hostname pathname = SWPolicy.staleWhileRevalidateState := by
    simp [classifyRequest, beq_eq_false_iff_ne.mpr hapi, hmark]
  refine ⟨he, ?_, ?_, ?_⟩ <;> simp [he]

/-- Witness for C7 at a same-host state-snapshot URL. -/
theorem state_marker_requests_use_swr_witness :
    pathHasStateMarker "/_STATE/org-index.json" = true ∧
    classifyRequest "GET" "infinity-x-one-systems.github.io" "/_STATE/org-index.json"
      = SWPolicy.staleWhileRevalidateState :=
  ⟨by decide,
    (state_marker_requests_use_swr "infinity-x-one-systems.github.io" "/_STATE/org-index.json"
      (by decide) (by decide)).1⟩

/-! ## C8 — GitHub API requests are network-first and never cached -/

/-- C8: every GET to the live GitHub API host is answered by the network
result when one exists and by the synthesized offline JSON error body when
the fetch fails, and the cache storage is left untouched either way. -/
theorem github_api_network_first_uncached (pathname reqUrl : String)
    (cs : CacheStore) (net : Option SWResponse) :
    handleFetch "GET" "api.github.com" pathname reqUrl cs net
        = (some (net.getD offlineApiResponse), cs) ∧
    handleFetch "GET" "api.github.com" pathname reqUrl cs none
        = (some offlineApiResponse, cs) := by
  have hc : classifyRequest "GET" "api.github.com" pathname = SWPolicy.networkFirstApi := by
    simp [classifyRequest]
  constructor <;> simp [handleFetch, hc]

/-! ## C9 — activation deletes every stale cache generation -/

/-- Searching for a current generation name is unaffected by the
activation filter, which only removes generations with other names. -/
theorem find?_name_activateCleanup (cs : CacheStore) (n : String)
    (hn : n = CACHE_NAME ∨ n = API_CACHE) :
    (activateCleanup cs).find? (fun c => c.1 == n) = cs.find? (fun c => c.1 == n) := by
  induction cs with
  | nil => rfl
  | cons c rest ih =>
    unfold activateCleanup at ih ⊢
    rw [List.filter_cons]
    by_cases hor : (!(c.1 != CACHE_NAME && c.1 != API_CACHE)) = true
    · rw [if_pos hor]
      by_cases hc : (c.1 == n) = true
      · rw [List.find?_cons, List.find?_cons, hc]
      · have hcf : (c.1 == n) = false := by
          rcases Bool.eq_false_or_eq_true (c.1 == n) with h | h
          · exact absurd h hc
          · exact h
        rw [List.find?_cons, List.find?_cons, hcf]
        exact ih
    · rw [if_neg hor]
      have hb : (c.1 != CACHE_NAME && c.1 != API_CACHE) = true := by
        rcases Bool.eq_false_or_eq_true (c.1 != CACHE_NAME && c.1 != API_CACHE) with h | h
        · exact h
        · exact absurd (by simp [h] : (!(c.1 != CACHE_NAME && c.1 != API_CACHE)) = true) hor
      rw [Bool.and_eq_true] at hb
      have hcn : c.1 ≠ n := by
        rcases hn with rfl | rfl
        · simpa using hb.1
        · simpa using hb.2
      rw [List.find?_cons, beq_eq_false_iff_ne.mpr hcn]
      exact ih

/-- C9: after activation, a cache generation whose identifier is neither
the current shell identifier nor the current API identifier is gone, so
none of its entries is retrievable, while the two current generations are
preserved unchanged. -/
theorem activate_evicts_stale_generations (cs : CacheStore) (k : String) :
    (k ≠ CACHE_NAME → k ≠ API_CACHE → lookupCache (activateCleanup cs) k = none) ∧
    lookupCache (activateCleanup cs) CACHE_NAME = lookupCache cs CACHE_NAME ∧
    lookupCache (activateCleanup cs) API_CACHE = lookupCache cs API_CACHE := by
  refine ⟨?_, ?_, ?_⟩
  · intro h1 h2
    rw [lookupCache]
    have hnone : (activateCleanup cs).find? (fun c => c.1 == k) = none := by
      rw [List.find?_eq_none]
      intro x hx hb
      rw [activateCleanup, List.mem_filter] at hx
      have hkeep := hx.2
      have hor : x.1 = CACHE_NAME ∨ x.1 = API_CACHE := by
        by_contra hcon
        push_neg at hcon
        simp [bne_iff_ne, hcon.1, hcon.2] at hkeep
      have hxk : x.1 = k := by simpa using hb
      rcases hor with hx1 | hx1
      · exact h1 (hxk.symm.trans hx1)
      · exact h2 (hxk.symm.trans hx1)
    simp [hnone]
  · rw [lookupCache, lookupCache, find?_name_activateCleanup cs CACHE_NAME (Or.inl rfl)]
  · rw [lookupCache, lookupCache, find?_name_activateCleanup cs API_CACHE (Or.inr rfl)]

/-- A cache storage with one stale generation and the two current ones. -/
def sampleCaches : CacheStore :=
  [ ("iacp-v0", [("https://site/app.js", { body := "old", status := 200 })]),
    ("iacp-v1", [("https://site/app.js", { body := "shell", status := 200 })]),
    ("iacp-api-v1", [("https://site/_STATE/org-index.json", { body := "snap", status := 200 })]) ]

/-- Witness for C9 on a concrete cache storage. -/
theorem activate_evicts_stale_generations_witness :
    lookupCache (activateCleanup sampleCaches) "iacp-v0" = none ∧
    lookupCache (activateCleanup sampleCaches) CACHE_NAME = lookupCache sampleCaches CACHE_NAME ∧
    lookupCache (activateCleanup sampleCaches) API_CACHE = lookupCache sampleCaches API_CACHE := by
  have h := activate_evicts_stale_generations sampleCaches "iacp-v0"
  exact ⟨h.1 (by decide) (by decide), h.2.1, h.2.2⟩

/-! ## C3 — stale-while-revalidate with a cache miss and a failed fetch -/

/-- C3, evaluated at the failing input: with no cached copy and a failed
network fetch, the helper returns the caught-to-null fetch promise, since
a promise object is always truthy in the logical-or chain, so the request
ends in a network error instead of the empty JSON object of the dead
final fallback. -/
theorem swr_cache_miss_network_failure_no_response :
    (staleWhileRevalidate [] "https://site/_STATE/org-index.json" none).1 = none ∧
    (staleWhileRevalidate [] "https://site/_STATE/org-index.json" none).1 ≠ some emptyJsonResponse ∧
    (handleFetch "GET" "infinity-x-one-systems.github.io" "/_STATE/org-index.json"
      "https://infinity-x-one-systems.github.io/_STATE/org-index.json" [] none).1 = none := by
  refine ⟨by decide, by decide, by decide⟩

/-! ## C10 — saveTunnelConfig writes only nonempty overrides and touches
only its two keys -/

/-- The two override keys differ. -/
theorem gw_keys_distinct : (GW_KEY_CF_URL == GW_KEY_CF_GW) = false := by decide

/-- The two override keys differ, reversed. -/
theorem gw_keys_distinct_symm : (GW_KEY_CF_GW == GW_KEY_CF_URL) = false := by decide

/-- C10: saveTunnelConfig modifies no key other than the two override
keys; an empty or absent field leaves its key unchanged, so a saved
override is never cleared by saving; a nonempty trimmed field writes
exactly its trimmed value. -/
theorem saveTunnelConfig_frame_effect (cfInput gwInput : Option String) (st : LocalStore) :
    (∀ k, k ≠ GW_KEY_CF_URL → k ≠ GW_KEY_CF_GW →
      saveTunnelConfig cfInput gwInput st k = st k) ∧
    (optTruthy (cfInput.map jsTrim) = false →
      saveTunnelConfig cfInput gwInput st GW_KEY_CF_URL = st GW_KEY_CF_URL) ∧
    (optTruthy (gwInput.map jsTrim) = false →
      saveTunnelConfig cfInput gwInput st GW_KEY_CF_GW = st GW_KEY_CF_GW) ∧
    (∀ s, cfInput = some s → jsTrim s ≠ "" →
      saveTunnelConfig cfInput gwInput st GW_KEY_CF_URL = some (jsTrim s)) ∧
    (∀ s, gwInput = some s → jsTrim s ≠ "" →
      saveTunnelConfig cfInput gwInput st GW_KEY_CF_GW = some (jsTrim s)) ∧
    (∀ v, st GW_KEY_CF_URL = some v →
      ∃ w, saveTunnelConfig cfInput gwInput st GW_KEY_CF_URL = some w) ∧
    (∀ v, st GW_KEY_CF_GW = some v →
      ∃ w, saveTunnelConfig cfInput gwInput st GW_KEY_CF_GW = some w) := by
  refine ⟨?_, ?_, ?_, ?_, ?_, ?_, ?_⟩
  · intro k hk1 hk2
    by_cases hcf : optTruthy (cfInput.map jsTrim) = true <;>
      by_cases hgw : optTruthy (gwInput.map jsTrim) = true <;>
        simp [saveTunnelConfig, setItem, hcf, hgw,
          beq_eq_false_iff_ne.mpr hk1, beq_eq_false_iff_ne.mpr hk2]
  · intro hf
    by_cases hgw : optTruthy (gwInput.map jsTrim) = true <;>
      simp [saveTunnelConfig, setItem, hf, hgw, gw_keys_distinct]
  · intro hf
    by_cases hcf : optTruthy (cfInput.map jsTrim) = true <;>
      simp [saveTunnelConfig, setItem, hf, hcf, gw_keys_distinct_symm]
  · rintro s rfl hs
    have htr := optTruthy_some hs
    by_cases hgw : optTruthy (gwInput.map jsTrim) = true <;>
      simp [saveTunnelConfig, setItem, htr, hgw, gw_keys_distinct]
  · rintro s rfl hs
    have htr := optTruthy_some hs
    by_cases hcf : optTruthy (cfInput.map jsTrim) = true <;>
      simp [saveTunnelConfig, setItem, htr, hcf]
  · intro v hv
    by_cases hcf : optTruthy (cfInput.map jsTrim) = true
    · refine ⟨(cfInput.map jsTrim).getD "", ?_⟩
      by_cases hgw : optTruthy (gwInput.map jsTrim) = true <;>
        simp [saveTunnelConfig, setItem, hcf, hgw, gw_keys_distinct]
    · refine ⟨v, ?_⟩
      by_cases hgw : optTruthy (gwInput.map jsTrim) = true <;>
        simp [saveTunnelConfig, setItem, hcf, hgw, hv, gw_keys_distinct]
  · intro v hv
    by_cases hgw : optTruthy (gwInput.map jsTrim) = true
    · refine ⟨(gwInput.map jsTrim).getD "", ?_⟩
      by_cases hcf : optTruthy (cfInput.map jsTrim) = true <;>
        simp [saveTunnelConfig, setItem, hcf, hgw]
    · refine ⟨v, ?_⟩
      by_cases hcf : optTruthy (cfInput.map jsTrim) = true <;>
        simp [saveTunnelConfig, setItem, hcf, hgw, hv, gw_keys_distinct_symm]

/-- A stored configuration that already holds a saved tunnel override. -/
def sampleStore : LocalStore :=
  fun k => if k == GW_KEY_CF_URL then some "https://old.example" else none

/-- Witness for C10: saving with a whitespace tunnel field and a nonempty
gateway field leaves the saved tunnel override and unrelated keys
unchanged and writes the trimmed gateway URL. -/
theorem saveTunnelConfig_frame_effect_witness :
    saveTunnelConfig (some " ") (some "https://gw.example") sampleStore GW_KEY_CF_URL
        = sampleStore GW_KEY_CF_URL ∧
    saveTunnelConfig (some " ") (some "https://gw.example") sampleStore "iacp_theme"
        = sampleStore "iacp_theme" ∧
    saveTunnelConfig (some " ") (some "https://gw.example") sampleStore GW_KEY_CF_GW
        = some "https://gw.example" := by
  have h := saveTunnelConfig_frame_effect (some " ") (some "https://gw.example") sampleStore
  refine ⟨h.2.1 (by decide), h.1 "iacp_theme" (by decide) (by decide), ?_⟩
  have hw := h.2.2.2.2.1 "https://gw.example" rfl (by decide)
  exact hw.trans (by decide)

end IACP
